import Mathlib

/-!
# Verification of `matcha/track_point.py`

A shallow embedding of the `TrackPoint` module: a detector track endpoint
that classifies its x-coordinate into one of seven TPC regions (via
`np.digitize` over six fixed boundaries), derives a drift-direction sign
from the region, and can shift its x-position by
`drift_velocity * t0 * drift_direction`.

Python floats are modelled as rationals (`ℚ`); the boundary decimals are
exact in both. A Python value that may be `None` is an `Option`; an
operation that can raise `TypeError` returns `Except PyError _`.
-/

/-- Embeds the module-level `V_DRIFT = None` binding, as it stands when the
module is imported. The hosting application may rebind the module global later;
that later value is passed around explicitly where it matters (see
`TrackPoint.shift_position_x_noarg`). -/
def V_DRIFT : Option ℚ := none

/-- Embeds `TPC_X_BOUNDS = [-358.49, -210.215, -61.94, 61.94, 210.215, 358.49]`. -/
def TPC_X_BOUNDS : List ℚ := [-358.49, -210.215, -61.94, 61.94, 210.215, 358.49]

/-- Embeds the `TPCRegion` enum: the seven x-axis regions, in increasing-x
order, with enum values 0 through 6. -/
inductive TPCRegion where
  | WestOfWW
  | WW
  | WE
  | BetweenTPCs
  | EW
  | EE
  | EastOfEE
deriving DecidableEq, Repr

/-- Embeds the `TPCRegion(value)` enum lookup. `np.digitize` over six
boundaries always returns an index in `[0, 6]`, so the lookup never fails on
reachable inputs; an out-of-range value is totalized to `none`. -/
def TPCRegion.ofValue (n : ℕ) : Option TPCRegion :=
  match n with
  | 0 => some .WestOfWW
  | 1 => some .WW
  | 2 => some .WE
  | 3 => some .BetweenTPCs
  | 4 => some .EW
  | 5 => some .EE
  | 6 => some .EastOfEE
  | _ => none

/-- Embeds `np.digitize(x, bins)` (default `right=False`) for an ascending
bin list: the index of the first bin strictly greater than `x`, i.e. the
count of bins `b` with `b ≤ x`. -/
def digitize (x : ℚ) : List ℚ → ℕ
  | [] => 0
  | b :: bs => (if b ≤ x then 1 else 0) + digitize x bs

/-- Embeds `TrackPoint._get_drift_direction(point_x)`: digitize `point_x`
over `TPC_X_BOUNDS`, look the index up in `TPCRegion`, and return `+1` for
the west-drifting regions `WW`/`EW`, `-1` for the east-drifting regions
`EE`/`WE`, and `None` otherwise. -/
def getDriftDirection (point_x : ℚ) : Option ℤ :=
  let point_region := digitize point_x TPC_X_BOUNDS
  let region := TPCRegion.ofValue point_region
  if region = some TPCRegion.WW ∨ region = some TPCRegion.EW then some 1
  else if region = some TPCRegion.EE ∨ region = some TPCRegion.WE then some (-1)
  else none

/-- Embeds the `TrackPoint` object: one private field per Python attribute. -/
structure TrackPoint where
  track_id : ℤ
  position_x : ℚ
  position_y : ℚ
  position_z : ℚ
  direction_x : ℚ
  direction_y : ℚ
  direction_z : ℚ
  drift_direction : Option ℤ
deriving DecidableEq, Repr

/-- Embeds `TrackPoint.__init__`: stores the seven supplied values and
derives `drift_direction` from the supplied `position_x` via
`_get_drift_direction`. -/
def TrackPoint.init (track_id : ℤ)
    (position_x position_y position_z : ℚ)
    (direction_x direction_y direction_z : ℚ) : TrackPoint :=
  { track_id := track_id
    position_x := position_x
    position_y := position_y
    position_z := position_z
    direction_x := direction_x
    direction_y := direction_y
    direction_z := direction_z
    drift_direction := getDriftDirection position_x }

/-- Embeds the `position_x` property setter: a plain field write with no
side effects (it does not recompute `drift_direction`). -/
def TrackPoint.setPositionX (p : TrackPoint) (value : ℚ) : TrackPoint :=
  { p with position_x := value }

/-- Embeds the `drift_direction` property setter: a plain field write. -/
def TrackPoint.setDriftDirection (p : TrackPoint) (value : Option ℤ) : TrackPoint :=
  { p with drift_direction := value }

/-- The runtime faults `shift_position_x` can raise: multiplying a float by
`None` (missing drift velocity or missing drift direction) raises
`TypeError` in Python. -/
inductive PyError where
  | typeError
deriving DecidableEq, Repr

/-- Embeds `TrackPoint.shift_position_x(t0, drift_velocity)` with the
drift-velocity argument supplied explicitly. The body computes
`shifted_x = position_x + drift_velocity * t0 * drift_direction` and writes
it back; if `drift_velocity` or `drift_direction` is `None`, the
multiplication raises `TypeError` before `position_x` is assigned, so the
point is not modified. -/
def TrackPoint.shift_position_x (p : TrackPoint) (t0 : ℚ)
    (drift_velocity : Option ℚ) : Except PyError TrackPoint :=
  match drift_velocity, p.drift_direction with
  | some v, some d =>
      Except.ok { p with position_x := p.position_x + v * t0 * (d : ℚ) }
  | _, _ => Except.error PyError.typeError

/-- The default value of the `drift_velocity` parameter. Python evaluates a
default-argument expression once, at `def` time (module import), so this is
the value `V_DRIFT` held at import: `None`. -/
def TrackPoint.shift_position_x_default_arg : Option ℚ := V_DRIFT

/-- Embeds a call `p.shift_position_x(t0)` with the drift-velocity argument
omitted, made at a time when the module global `V_DRIFT` holds
`current_V_DRIFT`. Because Python binds the default at `def` time, the call
uses `shift_position_x_default_arg`, not the current global. -/
def TrackPoint.shift_position_x_noarg (current_V_DRIFT : Option ℚ)
    (p : TrackPoint) (t0 : ℚ) : Except PyError TrackPoint :=
  p.shift_position_x t0 TrackPoint.shift_position_x_default_arg

/-- A sequence of `shift_position_x` calls, each supplying `(t0, velocity)`,
threaded left to right; stops at the first raised error. -/
def TrackPoint.shiftMany (p : TrackPoint) (shifts : List (ℚ × ℚ)) :
    Except PyError TrackPoint :=
  match shifts with
  | [] => Except.ok p
  | s :: rest =>
      match p.shift_position_x s.1 (some s.2) with
      | Except.ok q => q.shiftMany rest
      | Except.error e => Except.error e

/-! ## Interval lemmas for the classifier -/

lemma digitize_bounds_case0 (x : ℚ) (h : x < -358.49) :
    digitize x TPC_X_BOUNDS = 0 := by
  simp only [digitize, TPC_X_BOUNDS]
  rw [if_neg (by linarith), if_neg (by linarith), if_neg (by linarith),
    if_neg (by linarith), if_neg (by linarith), if_neg (by linarith)]

lemma digitize_bounds_case1 (x : ℚ) (h1 : -358.49 ≤ x) (h2 : x < -210.215) :
    digitize x TPC_X_BOUNDS = 1 := by
  simp only [digitize, TPC_X_BOUNDS]
  rw [if_pos h1, if_neg (by linarith), if_neg (by linarith),
    if_neg (by linarith), if_neg (by linarith), if_neg (by linarith)]

lemma digitize_bounds_case2 (x : ℚ) (h1 : -210.215 ≤ x) (h2 : x < -61.94) :
    digitize x TPC_X_BOUNDS = 2 := by
  simp only [digitize, TPC_X_BOUNDS]
  rw [if_pos (by linarith), if_pos h1, if_neg (by linarith),
    if_neg (by linarith), if_neg (by linarith), if_neg (by linarith)]

lemma digitize_bounds_case3 (x : ℚ) (h1 : -61.94 ≤ x) (h2 : x < 61.94) :
    digitize x TPC_X_BOUNDS = 3 := by
  simp only [digitize, TPC_X_BOUNDS]
  rw [if_pos (by linarith), if_pos (by linarith), if_pos h1,
    if_neg (by linarith), if_neg (by linarith), if_neg (by linarith)]

lemma digitize_bounds_case4 (x : ℚ) (h1 : 61.94 ≤ x) (h2 : x < 210.215) :
    digitize x TPC_X_BOUNDS = 4 := by
  simp only [digitize, TPC_X_BOUNDS]
  rw [if_pos (by linarith), if_pos (by linarith), if_pos (by linarith),
    if_pos h1, if_neg (by linarith), if_neg (by linarith)]

lemma digitize_bounds_case5 (x : ℚ) (h1 : 210.215 ≤ x) (h2 : x < 358.49) :
    digitize x TPC_X_BOUNDS = 5 := by
  simp only [digitize, TPC_X_BOUNDS]
  rw [if_pos (by linarith), if_pos (by linarith), if_pos (by linarith),
    if_pos (by linarith), if_pos h1, if_neg (by linarith)]

lemma digitize_bounds_case6 (x : ℚ) (h : 358.49 ≤ x) :
    digitize x TPC_X_BOUNDS = 6 := by
  simp only [digitize, TPC_X_BOUNDS]
  rw [if_pos (by linarith), if_pos (by linarith), if_pos (by linarith),
    if_pos (by linarith), if_pos (by linarith), if_pos h]

lemma getDriftDirection_case0 (x : ℚ) (h : x < -358.49) :
    getDriftDirection x = none := by
  simp only [getDriftDirection, digitize_bounds_case0 x h]
  decide

lemma getDriftDirection_case1 (x : ℚ) (h1 : -358.49 ≤ x) (h2 : x < -210.215) :
    getDriftDirection x = some 1 := by
  simp only [getDriftDirection, digitize_bounds_case1 x h1 h2]
  decide

lemma getDriftDirection_case2 (x : ℚ) (h1 : -210.215 ≤ x) (h2 : x < -61.94) :
    getDriftDirection x = some (-1) := by
  simp only [getDriftDirection, digitize_bounds_case2 x h1 h2]
  decide

lemma getDriftDirection_case3 (x : ℚ) (h1 : -61.94 ≤ x) (h2 : x < 61.94) :
    getDriftDirection x = none := by
  simp only [getDriftDirection, digitize_bounds_case3 x h1 h2]
  decide

lemma getDriftDirection_case4 (x : ℚ) (h1 : 61.94 ≤ x) (h2 : x < 210.215) :
    getDriftDirection x = some 1 := by
  simp only [getDriftDirection, digitize_bounds_case4 x h1 h2]
  decide

lemma getDriftDirection_case5 (x : ℚ) (h1 : 210.215 ≤ x) (h2 : x < 358.49) :
    getDriftDirection x = some (-1) := by
  simp only [getDriftDirection, digitize_bounds_case5 x h1 h2]
  decide

lemma getDriftDirection_case6 (x : ℚ) (h : 358.49 ≤ x) :
    getDriftDirection x = none := by
  simp only [getDriftDirection, digitize_bounds_case6 x h]
  decide

/-! ## Shift lemmas -/

lemma shift_position_x_ok (p : TrackPoint) (d : ℤ) (t0 v : ℚ)
    (h : p.drift_direction = some d) :
    p.shift_position_x t0 (some v)
      = Except.ok { p with position_x := p.position_x + v * t0 * (d : ℚ) } := by
  simp [TrackPoint.shift_position_x, h]

lemma init_drift_direction_100 :
    (TrackPoint.init 0 100 0 0 0 0 0).drift_direction = some 1 :=
  getDriftDirection_case4 100 (by norm_num) (by norm_num)

lemma shiftMany_ok (d : ℤ) (shifts : List (ℚ × ℚ)) :
    ∀ (p : TrackPoint), p.drift_direction = some d →
      p.shiftMany shifts
        = Except.ok { p with position_x :=
            p.position_x + (shifts.map (fun s => s.2 * s.1 * (d : ℚ))).sum } := by
  induction shifts with
  | nil => intro p h; simp [TrackPoint.shiftMany]
  | cons s rest ih =>
      intro p h
      rw [TrackPoint.shiftMany, shift_position_x_ok p d s.1 s.2 h]
      show TrackPoint.shiftMany _ rest = _
      rw [ih { p with position_x := p.position_x + s.2 * s.1 * (d : ℚ) } h]
      simp only [List.map_cons, List.sum_cons, Except.ok.injEq, TrackPoint.mk.injEq,
        true_and, and_true]
      ring

/-! ## Claim theorems -/

/-- C1: for every rational `x` supplied as `position_x`, the derived
drift direction follows the seven-region left-inclusive binning over the
fixed boundaries: `x` strictly below `-358.49`, strictly above `358.49`,
or in `(-61.94, 61.94)` gives no drift direction; `x` in
`(-358.49, -210.215)` or `(61.94, 210.215)` gives `+1`; `x` in
`(-210.215, -61.94)` or `(210.215, 358.49)` gives `-1`. -/
theorem drift_direction_seven_region_binning (x : ℚ) :
    ((x < -358.49 ∨ 358.49 < x ∨ (-61.94 < x ∧ x < 61.94)) →
      getDriftDirection x = none)
    ∧ (((-358.49 < x ∧ x < -210.215) ∨ (61.94 < x ∧ x < 210.215)) →
      getDriftDirection x = some 1)
    ∧ (((-210.215 < x ∧ x < -61.94) ∨ (210.215 < x ∧ x < 358.49)) →
      getDriftDirection x = some (-1)) := by
  refine ⟨?_, ?_, ?_⟩
  · rintro (h | h | ⟨h1, h2⟩)
    · exact getDriftDirection_case0 x h
    · exact getDriftDirection_case6 x h.le
    · exact getDriftDirection_case3 x h1.le h2
  · rintro (⟨h1, h2⟩ | ⟨h1, h2⟩)
    · exact getDriftDirection_case1 x h1.le h2
    · exact getDriftDirection_case4 x h1.le h2
  · rintro (⟨h1, h2⟩ | ⟨h1, h2⟩)
    · exact getDriftDirection_case2 x h1.le h2
    · exact getDriftDirection_case5 x h1.le h2

/-- Witness for C1: one concrete point in each of the seven regions. -/
theorem drift_direction_seven_region_binning_witness :
    getDriftDirection (-400) = none
    ∧ getDriftDirection 400 = none
    ∧ getDriftDirection 0 = none
    ∧ getDriftDirection (-300) = some 1
    ∧ getDriftDirection 100 = some 1
    ∧ getDriftDirection (-100) = some (-1)
    ∧ getDriftDirection 300 = some (-1) :=
  ⟨(drift_direction_seven_region_binning (-400)).1 (Or.inl (by norm_num)),
   (drift_direction_seven_region_binning 400).1 (Or.inr (Or.inl (by norm_num))),
   (drift_direction_seven_region_binning 0).1
     (Or.inr (Or.inr ⟨by norm_num, by norm_num⟩)),
   (drift_direction_seven_region_binning (-300)).2.1
     (Or.inl ⟨by norm_num, by norm_num⟩),
   (drift_direction_seven_region_binning 100).2.1
     (Or.inr ⟨by norm_num, by norm_num⟩),
   (drift_direction_seven_region_binning (-100)).2.2
     (Or.inl ⟨by norm_num, by norm_num⟩),
   (drift_direction_seven_region_binning 300).2.2
     (Or.inr ⟨by norm_num, by norm_num⟩)⟩

/-- C2: for every point whose drift direction is `+1` or `-1` and every
`t0` and `drift_velocity`, `shift_position_x` sets `position_x` to the old
`position_x + drift_velocity * t0 * drift_direction`; in particular, from
`position_x = 100` with direction `+1`, `t0 = 2`, velocity `0.5` the new
`position_x` is `101`, and with direction `-1` it is `99`. -/
theorem shift_position_x_formula :
    (∀ (p : TrackPoint) (d : ℤ) (t0 v : ℚ),
        p.drift_direction = some d → (d = 1 ∨ d = -1) →
        p.shift_position_x t0 (some v)
          = Except.ok { p with position_x := p.position_x + v * t0 * (d : ℚ) })
    ∧ Except.map TrackPoint.position_x
        ((TrackPoint.init 0 100 0 0 0 0 0).shift_position_x 2 (some 0.5))
        = Except.ok 101
    ∧ Except.map TrackPoint.position_x
        (((TrackPoint.init 0 100 0 0 0 0 0).setDriftDirection
            (some (-1))).shift_position_x 2 (some 0.5))
        = Except.ok 99 := by
  refine ⟨?_, ?_, ?_⟩
  · intro p d t0 v hd _
    exact shift_position_x_ok p d t0 v hd
  · rw [shift_position_x_ok _ 1 2 0.5 init_drift_direction_100]
    norm_num [TrackPoint.init, Except.map]
  · rw [shift_position_x_ok _ (-1) 2 0.5 rfl]
    norm_num [TrackPoint.init, TrackPoint.setDriftDirection, Except.map]

/-- Witness for C2: the general formula applied at the concrete point with
`position_x = 100`, drift direction `+1`, `t0 = 2`, velocity `0.5`. -/
theorem shift_position_x_formula_witness :
    (TrackPoint.init 0 100 0 0 0 0 0).shift_position_x 2 (some 0.5)
      = Except.ok { TrackPoint.init 0 100 0 0 0 0 0 with
          position_x := (TrackPoint.init 0 100 0 0 0 0 0).position_x
            + 0.5 * 2 * ((1 : ℤ) : ℚ) } :=
  shift_position_x_formula.1 (TrackPoint.init 0 100 0 0 0 0 0) 1 2 0.5
    init_drift_direction_100 (Or.inl rfl)

/-- C3: an x-coordinate exactly equal to a boundary classifies into the
region that begins at that boundary (left-inclusive binning), for all six
boundary values, with the drift direction of that region. -/
theorem boundary_left_inclusive :
    (TPCRegion.ofValue (digitize (-358.49) TPC_X_BOUNDS) = some TPCRegion.WW
      ∧ getDriftDirection (-358.49) = some 1)
    ∧ (TPCRegion.ofValue (digitize (-210.215) TPC_X_BOUNDS) = some TPCRegion.WE
      ∧ getDriftDirection (-210.215) = some (-1))
    ∧ (TPCRegion.ofValue (digitize (-61.94) TPC_X_BOUNDS)
          = some TPCRegion.BetweenTPCs
      ∧ getDriftDirection (-61.94) = none)
    ∧ (TPCRegion.ofValue (digitize 61.94 TPC_X_BOUNDS) = some TPCRegion.EW
      ∧ getDriftDirection 61.94 = some 1)
    ∧ (TPCRegion.ofValue (digitize 210.215 TPC_X_BOUNDS) = some TPCRegion.EE
      ∧ getDriftDirection 210.215 = some (-1))
    ∧ (TPCRegion.ofValue (digitize 358.49 TPC_X_BOUNDS) = some TPCRegion.EastOfEE
      ∧ getDriftDirection 358.49 = none) :=
  ⟨⟨by rw [digitize_bounds_case1 _ le_rfl (by norm_num)]; rfl,
    getDriftDirection_case1 _ le_rfl (by norm_num)⟩,
   ⟨by rw [digitize_bounds_case2 _ le_rfl (by norm_num)]; rfl,
    getDriftDirection_case2 _ le_rfl (by norm_num)⟩,
   ⟨by rw [digitize_bounds_case3 _ le_rfl (by norm_num)]; rfl,
    getDriftDirection_case3 _ le_rfl (by norm_num)⟩,
   ⟨by rw [digitize_bounds_case4 _ le_rfl (by norm_num)]; rfl,
    getDriftDirection_case4 _ le_rfl (by norm_num)⟩,
   ⟨by rw [digitize_bounds_case5 _ le_rfl (by norm_num)]; rfl,
    getDriftDirection_case5 _ le_rfl (by norm_num)⟩,
   ⟨by rw [digitize_bounds_case6 _ le_rfl]; rfl,
    getDriftDirection_case6 _ le_rfl⟩⟩

/-- C4: for every point whose drift direction is absent, calling
`shift_position_x` with any `t0` and any supplied velocity raises
(`TypeError` from multiplying `None`); the operation returns no shifted
point, so `position_x` is never overwritten with a meaningless value. -/
theorem shift_position_x_undefined_direction (p : TrackPoint) (t0 v : ℚ)
    (h : p.drift_direction = none) :
    p.shift_position_x t0 (some v) = Except.error PyError.typeError
    ∧ ∀ q : TrackPoint, p.shift_position_x t0 (some v) ≠ Except.ok q := by
  refine ⟨?_, ?_⟩
  · simp [TrackPoint.shift_position_x, h]
  · intro q
    simp [TrackPoint.shift_position_x, h]

/-- Witness for C4: a point constructed at `x = 0` (between the TPCs, no
drift direction) errors on shift. -/
theorem shift_position_x_undefined_direction_witness :
    (TrackPoint.init 0 0 0 0 0 0 0).shift_position_x 1 (some 1)
      = Except.error PyError.typeError
    ∧ ∀ q : TrackPoint,
        (TrackPoint.init 0 0 0 0 0 0 0).shift_position_x 1 (some 1)
          ≠ Except.ok q :=
  shift_position_x_undefined_direction (TrackPoint.init 0 0 0 0 0 0 0) 1 1
    (getDriftDirection_case3 0 (by norm_num) (by norm_num))

/-- C5: repeated calls to `shift_position_x` compose additively: a sequence
of calls adds the sum of the individual `velocity * t0 * direction` terms
to `position_x`; in particular two calls with `t0 = 1`, velocity `1`,
direction `+1` starting from `position_x = 0` leave `position_x = 2`. -/
theorem shift_position_x_composes :
    (∀ (p : TrackPoint) (d : ℤ) (shifts : List (ℚ × ℚ)),
        p.drift_direction = some d →
        p.shiftMany shifts
          = Except.ok { p with position_x :=
              p.position_x + (shifts.map (fun s => s.2 * s.1 * (d : ℚ))).sum })
    ∧ Except.map TrackPoint.position_x
        (((TrackPoint.init 0 100 0 0 0 0 0).setPositionX 0).shiftMany
          [(1, 1), (1, 1)])
        = Except.ok 2 := by
  refine ⟨fun p d shifts h => shiftMany_ok d shifts p h, ?_⟩
  rw [shiftMany_ok 1 [(1, 1), (1, 1)]
    ((TrackPoint.init 0 100 0 0 0 0 0).setPositionX 0) init_drift_direction_100]
  norm_num [TrackPoint.init, TrackPoint.setPositionX, Except.map]

/-- Witness for C5: the general composition law applied to two unit shifts
from a concrete point at `position_x = 0` with drift direction `+1`. -/
theorem shift_position_x_composes_witness :
    ((TrackPoint.init 0 100 0 0 0 0 0).setPositionX 0).shiftMany [(1, 1), (1, 1)]
      = Except.ok { (TrackPoint.init 0 100 0 0 0 0 0).setPositionX 0 with
          position_x :=
            ((TrackPoint.init 0 100 0 0 0 0 0).setPositionX 0).position_x
              + (([(1, 1), (1, 1)] : List (ℚ × ℚ)).map
                  (fun s => s.2 * s.1 * ((1 : ℤ) : ℚ))).sum } :=
  shift_position_x_composes.1 ((TrackPoint.init 0 100 0 0 0 0 0).setPositionX 0)
    1 [(1, 1), (1, 1)] init_drift_direction_100

/-- C6: whenever `shift_position_x` succeeds, it mutates `position_x` only:
`track_id`, the other position and direction components, and
`drift_direction` are unchanged, and the drift direction is not recomputed
from the new `position_x`. -/
theorem shift_position_x_frame (p q : TrackPoint) (t0 : ℚ) (dv : Option ℚ)
    (h : p.shift_position_x t0 dv = Except.ok q) :
    q.track_id = p.track_id
    ∧ q.position_y = p.position_y
    ∧ q.position_z = p.position_z
    ∧ q.direction_x = p.direction_x
    ∧ q.direction_y = p.direction_y
    ∧ q.direction_z = p.direction_z
    ∧ q.drift_direction = p.drift_direction := by
  rcases dv with _ | v
  · simp [TrackPoint.shift_position_x] at h
  · rcases hd : p.drift_direction with _ | d
    · simp [TrackPoint.shift_position_x, hd] at h
    · rw [shift_position_x_ok p d t0 v hd] at h
      rcases h with ⟨rfl⟩ | _
      simp [hd]

/-- Witness for C6: a successful shift at a concrete point changes only
`position_x`. -/
theorem shift_position_x_frame_witness :
    ({ TrackPoint.init 0 100 0 0 0 0 0 with
        position_x := 101 } : TrackPoint).track_id
        = (TrackPoint.init 0 100 0 0 0 0 0).track_id
    ∧ ({ TrackPoint.init 0 100 0 0 0 0 0 with
        position_x := 101 } : TrackPoint).position_y
        = (TrackPoint.init 0 100 0 0 0 0 0).position_y
    ∧ ({ TrackPoint.init 0 100 0 0 0 0 0 with
        position_x := 101 } : TrackPoint).position_z
        = (TrackPoint.init 0 100 0 0 0 0 0).position_z
    ∧ ({ TrackPoint.init 0 100 0 0 0 0 0 with
        position_x := 101 } : TrackPoint).direction_x
        = (TrackPoint.init 0 100 0 0 0 0 0).direction_x
    ∧ ({ TrackPoint.init 0 100 0 0 0 0 0 with
        position_x := 101 } : TrackPoint).direction_y
        = (TrackPoint.init 0 100 0 0 0 0 0).direction_y
    ∧ ({ TrackPoint.init 0 100 0 0 0 0 0 with
        position_x := 101 } : TrackPoint).direction_z
        = (TrackPoint.init 0 100 0 0 0 0 0).direction_z
    ∧ ({ TrackPoint.init 0 100 0 0 0 0 0 with
        position_x := 101 } : TrackPoint).drift_direction
        = (TrackPoint.init 0 100 0 0 0 0 0).drift_direction :=
  shift_position_x_frame (TrackPoint.init 0 100 0 0 0 0 0)
    { TrackPoint.init 0 100 0 0 0 0 0 with position_x := 101 } 2 (some 0.5)
    (by rw [shift_position_x_ok _ 1 2 0.5 init_drift_direction_100]
        norm_num [TrackPoint.init])

/-- C7: `drift_direction` is computed exactly once, at construction, from
the constructor-supplied `position_x`; the `position_x` setter is a plain
field write, so assigning a new `position_x` afterward leaves
`drift_direction` at its previously computed (possibly stale) value. -/
theorem drift_direction_computed_once :
    (∀ (tid : ℤ) (px py pz dx dy dz : ℚ),
        (TrackPoint.init tid px py pz dx dy dz).drift_direction
          = getDriftDirection px)
    ∧ (∀ (p : TrackPoint) (x' : ℚ),
        (p.setPositionX x').position_x = x'
        ∧ (p.setPositionX x').drift_direction = p.drift_direction
        ∧ (p.setPositionX x').track_id = p.track_id
        ∧ (p.setPositionX x').position_y = p.position_y
        ∧ (p.setPositionX x').position_z = p.position_z
        ∧ (p.setPositionX x').direction_x = p.direction_x
        ∧ (p.setPositionX x').direction_y = p.direction_y
        ∧ (p.setPositionX x').direction_z = p.direction_z)
    ∧ (∀ (tid : ℤ) (px py pz dx dy dz x' : ℚ),
        ((TrackPoint.init tid px py pz dx dy dz).setPositionX x').drift_direction
          = getDriftDirection px) :=
  ⟨fun _ _ _ _ _ _ _ => rfl,
   fun _ _ => ⟨rfl, rfl, rfl, rfl, rfl, rfl, rfl, rfl⟩,
   fun _ _ _ _ _ _ _ _ => rfl⟩

/-- C8: with the module-wide drift-velocity default unset (`V_DRIFT = None`
at import), a call to `shift_position_x` that falls back on that default
errors at the point of use; no substitute velocity is used and no shifted
point is produced. -/
theorem unset_velocity_default_errors (p : TrackPoint) (t0 : ℚ) :
    V_DRIFT = none
    ∧ p.shift_position_x t0 V_DRIFT = Except.error PyError.typeError
    ∧ ∀ q : TrackPoint, p.shift_position_x t0 V_DRIFT ≠ Except.ok q := by
  refine ⟨rfl, rfl, ?_⟩
  intro q
  simp [TrackPoint.shift_position_x, V_DRIFT]

/-- C9: region classification is a pure, deterministic function of the
x-coordinate and the fixed boundaries: two points constructed with the same
`position_x` (and arbitrary other fields) get the same drift direction,
namely `getDriftDirection` of that x. -/
theorem classification_deterministic (x : ℚ) (tid₁ tid₂ : ℤ)
    (py₁ pz₁ dx₁ dy₁ dz₁ py₂ pz₂ dx₂ dy₂ dz₂ : ℚ) :
    getDriftDirection x = getDriftDirection x
    ∧ (TrackPoint.init tid₁ x py₁ pz₁ dx₁ dy₁ dz₁).drift_direction
        = (TrackPoint.init tid₂ x py₂ pz₂ dx₂ dy₂ dz₂).drift_direction
    ∧ (TrackPoint.init tid₁ x py₁ pz₁ dx₁ dy₁ dz₁).drift_direction
        = getDriftDirection x :=
  ⟨rfl, rfl, rfl⟩

/-- C10: the default of the `drift_velocity` parameter was bound to
`V_DRIFT`'s value (`None`) at module import, so rebinding the module global
afterward never changes it, and a call that omits the velocity argument
always errors (`TypeError` from multiplying `None`), whatever the point's
drift direction and whatever `V_DRIFT` currently holds. -/
theorem velocity_default_bound_at_import :
    TrackPoint.shift_position_x_default_arg = none
    ∧ (∀ (rebound : Option ℚ) (p : TrackPoint) (t0 : ℚ),
        TrackPoint.shift_position_x_noarg rebound p t0
          = TrackPoint.shift_position_x_noarg none p t0)
    ∧ (∀ (rebound : Option ℚ) (p : TrackPoint) (t0 : ℚ),
        TrackPoint.shift_position_x_noarg rebound p t0
          = Except.error PyError.typeError) :=
  ⟨rfl, fun _ _ _ => rfl, fun _ _ _ => rfl⟩
